import Mathlib

/-!
Verification of the WME Venue Data Crawler core (wme-venue-data-crawler-v0.2.1.user.js).

The definitions below are a shallow embedding of the script's data-extraction and
classification pipeline: the field-completeness analyzer, the search-query builder,
the multi-strategy content extractor, the venue scan collector, and the lookup/fetch
orchestrator.  JavaScript strings are Lean `String`s, nullable fields are `Option`,
the stored scan map is an association list with JS `Map` set/get semantics, and the
asynchronous network calls are modelled by an explicit request-outcome environment.
-/

namespace VenueCrawler

/-! ### JavaScript value helpers -/

/-- JS whitespace for `String.prototype.trim` (ASCII whitespace plus NBSP and BOM;
other Unicode space separators do not occur in this development). -/
def isJsSpace (c : Char) : Bool :=
  c == ' ' || c == '\t' || c == '\n' || c == '\x0d' || c == '\x0b' || c == '\x0c' ||
    c == '\u00A0' || c == '\uFEFF'

/-- JS `String.prototype.trim`: strip leading and trailing whitespace. -/
def jsTrim (s : String) : String :=
  String.mk (((s.data.dropWhile isJsSpace).reverse.dropWhile isJsSpace).reverse)

/-- `isEmpty(value)` from the script: null/undefined, or a string that trims to "". -/
def isEmpty : Option String → Bool
  | none => true
  | some s => jsTrim s == ""

/-- JS `o || d` for an optional string `o`: the string when truthy (non-empty), else `d`. -/
def jsOrStr (o : Option String) (d : String) : String :=
  match o with
  | none => d
  | some s => if s == "" then d else s

/-! ### JSON values and a model of `JSON.parse`

`JSON.parse` is the JS builtin used by `extractSchemaOrg`.  Numbers are kept as their
lexemes (no claim inspects numeric values); duplicate object keys are kept in parse
order and field access takes the last one, as `JSON.parse` does. -/

inductive Json where
  | null
  | bool (b : Bool)
  | num (lexeme : String)
  | str (s : String)
  | arr (elems : List Json)
  | obj (fields : List (String × Json))

/-- JSON whitespace accepted by `JSON.parse`. -/
def isJsonWs (c : Char) : Bool :=
  c == ' ' || c == '\t' || c == '\n' || c == '\r'

def skipWs : List Char → List Char
  | [] => []
  | c :: cs => if isJsonWs c then skipWs cs else c :: cs

def hexVal (c : Char) : Option Nat :=
  if '0' ≤ c ∧ c ≤ '9' then some (c.toNat - '0'.toNat)
  else if 'a' ≤ c ∧ c ≤ 'f' then some (c.toNat - 'a'.toNat + 10)
  else if 'A' ≤ c ∧ c ≤ 'F' then some (c.toNat - 'A'.toNat + 10)
  else none

/-- Read exactly four hex digits (the `XXXX` of a `\uXXXX` escape). -/
def readU4 : List Char → Option (Nat × List Char)
  | a :: b :: c :: d :: rest =>
    match hexVal a, hexVal b, hexVal c, hexVal d with
    | some x, some y, some z, some w => some (((x * 16 + y) * 16 + z) * 16 + w, rest)
    | _, _, _, _ => none
  | _ => none

/-- JSON string body after the opening quote.  Escapes follow `JSON.parse`; a raw
control character is a parse error.  Surrogate pairs in `\u` escapes are combined;
a lone surrogate (legal in JS strings but not representable as a Lean `Char`) is
mapped to U+FFFD. -/
def parseJsonString (fuel : Nat) (acc : List Char) (cs : List Char) :
    Option (String × List Char) :=
  match fuel, cs with
  | 0, _ => none
  | _, [] => none
  | f + 1, c :: rest =>
    if c == '"' then some (String.mk acc.reverse, rest)
    else if c == '\\' then
      match rest with
      | [] => none
      | e :: rest2 =>
        if e == '"' then parseJsonString f ('"' :: acc) rest2
        else if e == '\\' then parseJsonString f ('\\' :: acc) rest2
        else if e == '/' then parseJsonString f ('/' :: acc) rest2
        else if e == 'b' then parseJsonString f ('\x08' :: acc) rest2
        else if e == 'f' then parseJsonString f ('\x0c' :: acc) rest2
        else if e == 'n' then parseJsonString f ('\n' :: acc) rest2
        else if e == 'r' then parseJsonString f ('\x0d' :: acc) rest2
        else if e == 't' then parseJsonString f ('\t' :: acc) rest2
        else if e == 'u' then
          match readU4 rest2 with
          | none => none
          | some (n1, rest3) =>
            if 0xD800 ≤ n1 ∧ n1 ≤ 0xDBFF then
              match rest3 with
              | '\\' :: 'u' :: rest4 =>
                match readU4 rest4 with
                | some (n2, rest5) =>
                  if 0xDC00 ≤ n2 ∧ n2 ≤ 0xDFFF then
                    parseJsonString f
                      (Char.ofNat (0x10000 + (n1 - 0xD800) * 0x400 + (n2 - 0xDC00)) :: acc)
                      rest5
                  else parseJsonString f ('�' :: acc) rest3
                | none => parseJsonString f ('�' :: acc) rest3
              | _ => parseJsonString f ('�' :: acc) rest3
            else if 0xDC00 ≤ n1 ∧ n1 ≤ 0xDFFF then
              parseJsonString f ('�' :: acc) rest3
            else parseJsonString f (Char.ofNat n1 :: acc) rest3
        else none
    else if c.toNat < 0x20 then none
    else parseJsonString f (c :: acc) rest

/-- Maximal run of ASCII digits. -/
def takeDigits : List Char → List Char × List Char
  | [] => ([], [])
  | c :: cs =>
    if c.isDigit then
      let (d, r) := takeDigits cs
      (c :: d, r)
    else ([], c :: cs)

/-- A JSON number lexeme: `-? int frac? exp?` with `int = 0 | [1-9][0-9]*`. -/
def parseJsonNumber (cs : List Char) : Option (String × List Char) :=
  let (sign, cs1) :=
    match cs with
    | '-' :: r => (['-'], r)
    | _ => (([] : List Char), cs)
  match cs1 with
  | [] => none
  | c :: r =>
    if c == '0' || c.isDigit then
      let (intPart, rest1) :=
        if c == '0' then (['0'], r)
        else
          let (d, r2) := takeDigits r
          (c :: d, r2)
      let (fracPart, rest2) :=
        match rest1 with
        | '.' :: r3 =>
          match takeDigits r3 with
          | ([], _) => (([] : List Char), rest1)
          | (d, r4) => ('.' :: d, r4)
        | _ => (([] : List Char), rest1)
      -- a '.' not followed by a digit is left unconsumed (the overall parse then fails
      -- at the enclosing delimiter check, as JSON.parse does)
      if fracPart.isEmpty && (match rest1 with | '.' :: _ => true | _ => false) then
        none
      else
        let (expPart, rest3) :=
          match rest2 with
          | e :: r5 =>
            if e == 'e' || e == 'E' then
              let (es, r6) :=
                match r5 with
                | '+' :: r7 => ([e, '+'], r7)
                | '-' :: r7 => ([e, '-'], r7)
                | _ => ([e], r5)
              match takeDigits r6 with
              | ([], _) => (([] : List Char), none)
              | (d, r8) => (es ++ d, some r8)
            else (([] : List Char), some rest2)
          | [] => (([] : List Char), some rest2)
        match rest3 with
        | none => none
        | some rest4 => some (String.mk (sign ++ intPart ++ fracPart ++ expPart), rest4)
    else none

mutual

/-- `JSON.parse` value, expected at the head of `cs` (whitespace already skipped). -/
def parseJsonValue (fuel : Nat) (cs : List Char) : Option (Json × List Char) :=
  match fuel with
  | 0 => none
  | f + 1 =>
    match cs with
    | 'n' :: 'u' :: 'l' :: 'l' :: r => some (.null, r)
    | 't' :: 'r' :: 'u' :: 'e' :: r => some (.bool true, r)
    | 'f' :: 'a' :: 'l' :: 's' :: 'e' :: r => some (.bool false, r)
    | '"' :: r =>
      match parseJsonString (f + 1) [] r with
      | some (s, r2) => some (.str s, r2)
      | none => none
    | '[' :: r =>
      match skipWs r with
      | ']' :: r2 => some (.arr [], r2)
      | r1 =>
        match parseJsonArrayItems f r1 with
        | some (vs, r2) => some (.arr vs, r2)
        | none => none
    | '{' :: r =>
      match skipWs r with
      | '}' :: r2 => some (.obj [], r2)
      | r1 =>
        match parseJsonObjectItems f r1 with
        | some (kvs, r2) => some (.obj kvs, r2)
        | none => none
    | _ =>
      match parseJsonNumber cs with
      | some (lex, r) => some (.num lex, r)
      | none => none

/-- Array items, `cs` at the start of a value; consumes through the closing `]`. -/
def parseJsonArrayItems (fuel : Nat) (cs : List Char) : Option (List Json × List Char) :=
  match fuel with
  | 0 => none
  | f + 1 =>
    match parseJsonValue f cs with
    | none => none
    | some (v, r) =>
      match skipWs r with
      | ',' :: r2 =>
        match parseJsonArrayItems f (skipWs r2) with
        | some (vs, r3) => some (v :: vs, r3)
        | none => none
      | ']' :: r2 => some ([v], r2)
      | _ => none

/-- Object members, `cs` at the start of a key; consumes through the closing `}`. -/
def parseJsonObjectItems (fuel : Nat) (cs : List Char) :
    Option (List (String × Json) × List Char) :=
  match fuel with
  | 0 => none
  | f + 1 =>
    match cs with
    | '"' :: r =>
      match parseJsonString (f + 1) [] r with
      | none => none
      | some (k, r1) =>
        match skipWs r1 with
        | ':' :: r2 =>
          match parseJsonValue f (skipWs r2) with
          | none => none
          | some (v, r3) =>
            match skipWs r3 with
            | ',' :: r4 =>
              match parseJsonObjectItems f (skipWs r4) with
              | some (kvs, r5) => some ((k, v) :: kvs, r5)
              | none => none
            | '}' :: r4 => some ([(k, v)], r4)
            | _ => none
        | _ => none
    | _ => none

end

/-- `JSON.parse(text)`: one value, surrounding whitespace allowed, nothing trailing.
Fuel `2 * length + 4` dominates the recursion depth (each nesting level consumes at
least one delimiter character). -/
def parseJson (s : String) : Option Json :=
  let cs := skipWs s.data
  match parseJsonValue (2 * s.data.length + 4) cs with
  | some (v, rest) => if (skipWs rest).isEmpty then some v else none
  | none => none

/-! ### Case-insensitive scanning helpers (the extraction regexes all use the `i` flag) -/

def charCI (c d : Char) : Bool := c.toLower == d.toLower

/-- Does text `cs` start with literal `lit`, comparing case-insensitively? -/
def startsWithCI : List Char → List Char → Bool
  | [], _ => true
  | _ :: _, [] => false
  | l :: ls, c :: cs => charCI c l && startsWithCI ls cs

/-- Case-sensitive prefix test (literal first, text second). -/
def startsWithCS : List Char → List Char → Bool
  | [], _ => true
  | _ :: _, [] => false
  | l :: ls, c :: cs => (c == l) && startsWithCS ls cs

/-- Split at the first occurrence of character `c0`: `(before, after)`, both without `c0`. -/
def breakAtChar (c0 : Char) : List Char → Option (List Char × List Char)
  | [] => none
  | c :: cs =>
    if c == c0 then some ([], cs)
    else
      match breakAtChar c0 cs with
      | some (a, b) => some (c :: a, b)
      | none => none

/-- Split at the first case-insensitive occurrence of `lit`: `(before, after the literal)`. -/
def breakAtSubCI (lit : List Char) : List Char → Option (List Char × List Char)
  | [] => if lit.isEmpty then some ([], []) else none
  | c :: cs =>
    if startsWithCI lit (c :: cs) then some ([], (c :: cs).drop lit.length)
    else
      match breakAtSubCI lit cs with
      | some (a, b) => some (c :: a, b)
      | none => none

def isQuote (c : Char) : Bool := c == '"' || c == '\''

/-! ### `extractSchemaOrg`: the structured-data (Schema.org JSON-LD) strategy -/

/-- Does an open-tag body (guaranteed `>`-free) contain `type=` quote
`application/ld+json` quote, case-insensitively, each quote independently `"` or `'`?
This is the `[^>]*type=["']application\/ld\+json["'][^>]*` part of the block regex. -/
def hasLdJsonType : List Char → Bool
  | [] => false
  | c :: cs =>
    (startsWithCI "type=".data (c :: cs) &&
      (match (c :: cs).drop 5 with
       | q1 :: rest1 =>
         isQuote q1 && startsWithCI "application/ld+json".data rest1 &&
           (match rest1.drop 19 with
            | q2 :: _ => isQuote q2
            | [] => false)
       | [] => false)) ||
    hasLdJsonType cs

/-- All JSON-LD script blocks in document order: the capture groups of the global
regex `<script[^>]*type=["']application\/ld\+json["'][^>]*>([\s\S]*?)<\/script>` with
the `i` flag.  A match runs from `<script` through the first `>` (the `[^>]*` parts
cannot cross one), the lazy capture stops at the first `</script>`, and scanning
resumes after it; a failed start position advances by one character. -/
def findLdJsonBlocks : Nat → List Char → List String
  | 0, _ => []
  | _, [] => []
  | fuel + 1, c :: cs =>
    if startsWithCI "<script".data (c :: cs) then
      match breakAtChar '>' ((c :: cs).drop 7) with
      | some (tagBody, afterGt) =>
        if hasLdJsonType tagBody then
          match breakAtSubCI "</script>".data afterGt with
          | some (content, afterClose) =>
            String.mk content :: findLdJsonBlocks fuel afterClose
          | none => findLdJsonBlocks fuel cs
        else findLdJsonBlocks fuel cs
      | none => findLdJsonBlocks fuel cs
    else findLdJsonBlocks fuel cs

/-- Last-occurrence field lookup, matching how `JSON.parse` materialises duplicate
keys (later keys overwrite earlier ones). -/
def objGetLast (fields : List (String × Json)) (key : String) : Option Json :=
  match fields with
  | [] => none
  | (k, v) :: rest =>
    match objGetLast rest key with
    | some w => some w
    | none => if k == key then some v else none

/-- JS property access `item[key]` on a parsed JSON value: objects look the key up,
`null` throws a TypeError (modelled as `Except.error`), every other value yields
`undefined` (modelled as `none`). -/
def jsGetField : Json → String → Except Unit (Option Json)
  | .null, _ => .error ()
  | .obj fields, key => .ok (objGetLast fields key)
  | _, _ => .ok none

/-- Is the numeric lexeme a representation of zero (`0`, `-0`, `0.00e5`, ...)? -/
def numLexIsZero (lex : String) : Bool :=
  ((lex.data.takeWhile (fun c => !(c == 'e' || c == 'E'))).filter Char.isDigit).all
    (fun c => c == '0')

/-- JS truthiness of a parsed JSON value. -/
def jsTruthy : Json → Bool
  | .null => false
  | .bool b => b
  | .str s => s != ""
  | .num lex => !numLexIsZero lex
  | .arr _ => true
  | .obj _ => true

/-- `value.includes(needle)`: case-sensitive substring test on strings, SameValueZero
membership on arrays; any other receiver has no `includes` method and throws. -/
def jsIncludes (v : Json) (needle : String) : Except Unit Bool :=
  match v with
  | .str s => .ok (containsSub needle.data s.data)
  | .arr xs => .ok (xs.any fun x => match x with | .str t => t == needle | _ => false)
  | _ => .error ()
where
  containsSub (needle : List Char) : List Char → Bool
    | [] => needle.isEmpty
    | c :: cs => startsWithCS needle (c :: cs) || containsSub needle cs

/-- The business-type test of `extractSchemaOrg`:
`type && (type.includes('LocalBusiness') || type.includes('Restaurant') ||
type.includes('Organization') || type.includes('Store'))`. -/
def schemaTypeQualifies (item : Json) : Except Unit Bool := do
  let t? ← jsGetField item "@type"
  match t? with
  | none => pure false
  | some t =>
    if !jsTruthy t then pure false
    else do
      let b1 ← jsIncludes t "LocalBusiness"
      if b1 then pure true
      else do
        let b2 ← jsIncludes t "Restaurant"
        if b2 then pure true
        else do
          let b3 ← jsIncludes t "Organization"
          if b3 then pure true
          else jsIncludes t "Store"

/-- The object a qualifying block returns:
`{phone: item.telephone || null, website: item.url || null,
address: item.address?.streetAddress || null, name: item.name || null}`. -/
structure SchemaData where
  phone : Option Json
  website : Option Json
  address : Option Json
  name : Option Json

/-- `x || null` for a possibly-undefined JS value: kept when truthy, else null. -/
def jsOrNull (v : Option Json) : Option Json :=
  match v with
  | some x => if jsTruthy x then some x else none
  | none => none

/-- Field mapping for a qualifying item (necessarily an object: only objects can
have a truthy `@type`).  `item.address?.streetAddress` short-circuits on null. -/
def schemaDataOfItem (item : Json) : SchemaData :=
  let get := fun (k : String) =>
    match item with
    | .obj fs => objGetLast fs k
    | _ => none
  { phone := jsOrNull (get "telephone")
    website := jsOrNull (get "url")
    address := jsOrNull
      (match get "address" with
       | some (.obj fs) => objGetLast fs "streetAddress"
       | _ => none)
    name := jsOrNull (get "name") }

/-- The per-block item loop: first item whose type qualifies wins; a JS exception
while testing an item aborts the whole block. -/
def schemaItemsLoop : List Json → Except Unit (Option SchemaData)
  | [] => .ok none
  | item :: rest => do
    let q ← schemaTypeQualifies item
    if q then pure (some (schemaDataOfItem item)) else schemaItemsLoop rest

/-- One script block: parse as JSON, wrap non-arrays (`Array.isArray` check), run the
item loop; the inner `catch` turns a parse failure or exception into a skipped block. -/
def schemaBlockResult (block : String) : Option SchemaData :=
  match parseJson block with
  | none => none
  | some data =>
    let items :=
      match data with
      | .arr xs => xs
      | v => [v]
    match schemaItemsLoop items with
    | .ok r => r
    | .error _ => none

/-- The `while` loop over blocks: first block yielding data wins; blocks that fail to
parse (or qualify no item) are skipped and scanning continues. -/
def schemaFromBlocks : List String → Option SchemaData
  | [] => none
  | b :: bs =>
    match schemaBlockResult b with
    | some d => some d
    | none => schemaFromBlocks bs

/-- `extractSchemaOrg(html)`. -/
def extractSchemaOrg (html : String) : Option SchemaData :=
  schemaFromBlocks (findLdJsonBlocks (html.data.length + 1) html.data)

/-! ### `extractMicrodata`: the embedded-metadata strategy -/

structure MicroData where
  phone : Option String
  website : Option String
  address : Option String

/-- Greedy candidates for a `[^>]*` hole: the suffixes obtained by consuming
`k, k-1, ..., 0` non-`>` characters, longest consumption first (the backtracking
order of a greedy `[^>]*`). -/
def gtFreeCandidates (cs : List Char) : List (List Char) :=
  let k := (cs.takeWhile (fun c => c != '>')).length
  (List.range (k + 1)).map (fun i => cs.drop (k - i))

/-- Try the tail of `<meta[^>]*ATTR["']VAL["'][^>]*content=["']([^"']+)["']` right
after `<meta`; `attrEq` is the literal attribute part (e.g. `property=`) and `val`
its quoted value.  `[^>]*` splits are tried in backtracking order; the capture is a
maximal nonempty quote-free run, which must be followed by a quote of either kind. -/
def tryMetaTail (attrEq val : List Char) (cs : List Char) : Option String :=
  (gtFreeCandidates cs).findSome? fun cand1 =>
    if startsWithCI attrEq cand1 then
      match cand1.drop attrEq.length with
      | q1 :: rest1 =>
        if isQuote q1 && startsWithCI val rest1 then
          match rest1.drop val.length with
          | q2 :: rest2 =>
            if isQuote q2 then
              (gtFreeCandidates rest2).findSome? fun cand2 =>
                if startsWithCI "content=".data cand2 then
                  match cand2.drop 8 with
                  | q3 :: rest3 =>
                    if isQuote q3 then
                      let cap := rest3.takeWhile (fun c => !isQuote c)
                      match rest3.drop cap.length with
                      | q4 :: _ =>
                        if isQuote q4 && !cap.isEmpty then some (String.mk cap) else none
                      | [] => none
                    else none
                  | [] => none
                else none
            else none
          | [] => none
        else none
      | [] => none
    else none

/-- Leftmost match of one meta-tag pattern (`i` flag); returns capture group 1. -/
def metaMatch (attrEq val : String) : List Char → Option String
  | [] => none
  | c :: cs =>
    if startsWithCI "<meta".data (c :: cs) then
      match tryMetaTail attrEq.data val.data ((c :: cs).drop 5) with
      | some cap => some cap
      | none => metaMatch attrEq val cs
    else metaMatch attrEq val cs

def firstSome : List (Option String) → Option String
  | [] => none
  | some s :: _ => some s
  | none :: rest => firstSome rest

/-- `extractMicrodata(html)`: three independently searched ordered pattern lists
(phone, website, address); null overall only when all three fields stay null. -/
def extractMicrodata (html : String) : Option MicroData :=
  let cs := html.data
  let phone := firstSome
    [ metaMatch "property=" "business:contact_data:phone_number" cs,
      metaMatch "name=" "telephone" cs,
      metaMatch "itemprop=" "telephone" cs ]
  let website := firstSome
    [ metaMatch "property=" "og:url" cs,
      metaMatch "itemprop=" "url" cs ]
  let address := firstSome
    [ metaMatch "property=" "business:contact_data:street_address" cs,
      metaMatch "itemprop=" "streetAddress" cs ]
  if phone.isNone && website.isNone && address.isNone then none
  else some { phone := phone, website := website, address := address }

/-! ### `extractPhoneRegex` / `extractWithRegex`: the pattern-match fallback -/

/-- JS `\w`: `[A-Za-z0-9_]`. -/
def jsWordChar (c : Char) : Bool := c.isAlpha || c.isDigit || c == '_'

def isPhoneSep (c : Char) : Bool := c == '-' || c == '.'

/-- One optional character (`x?`), greedy: consume-first branch order. -/
def optStep (p : Char → Bool) (cs : List Char) : List (List Char) :=
  match cs with
  | c :: rest => if p c then [rest, c :: rest] else [c :: rest]
  | [] => [[]]

/-- One mandatory character. -/
def charStep (p : Char → Bool) (cs : List Char) : List (List Char) :=
  match cs with
  | c :: rest => if p c then [rest] else []
  | [] => []

/-- Exactly `n` ASCII digits. -/
def digitsStep : Nat → List Char → List (List Char)
  | 0, cs => [cs]
  | n + 1, cs =>
    match cs with
    | c :: rest => if c.isDigit then digitsStep n rest else []
    | [] => []

/-- All ways, in backtracking order, for the body of the phone regex
`(?:\+?1[-.]?)?\(?([0-9]{3})\)?[-.]?([0-9]{3})[-.]?([0-9]{4})` to match a prefix of
`cs`; each result is the remaining suffix. -/
def phonePaths (cs : List Char) : List (List Char) :=
  let p0 :=
    (((optStep (fun c => c == '+') cs).flatMap (charStep (fun c => c == '1'))).flatMap
        (optStep isPhoneSep)) ++ [cs]
  let p1 := p0.flatMap (optStep (fun c => c == '('))
  let p2 := p1.flatMap (digitsStep 3)
  let p3 := p2.flatMap (optStep (fun c => c == ')'))
  let p4 := p3.flatMap (optStep isPhoneSep)
  let p5 := p4.flatMap (digitsStep 3)
  let p6 := p5.flatMap (optStep isPhoneSep)
  p6.flatMap (digitsStep 4)

/-- Word-boundary test between an optional previous character and a next character. -/
def boundaryBetween (prev : Option Char) (c : Char) : Bool :=
  (match prev with
   | some p => jsWordChar p
   | none => false) != jsWordChar c

/-- Try the whole phone regex at the current position (leading `\b` already checked):
the first backtracking path whose trailing `\b` holds wins; result is `match[0]`. -/
def tryPhoneAt (cs : List Char) : Option String :=
  match (phonePaths cs).find? (fun rest =>
      match rest with
      | [] => true
      | c :: _ => !jsWordChar c) with
  | some rest => some (String.mk (cs.take (cs.length - rest.length)))
  | none => none

/-- Leftmost-position scan for the phone pattern, tracking the previous character
for the leading `\b` assertion. -/
def phoneScan (prev : Option Char) : List Char → Option String
  | [] => none
  | c :: rest =>
    if boundaryBetween prev c then
      match tryPhoneAt (c :: rest) with
      | some m => some m
      | none => phoneScan (some c) rest
    else phoneScan (some c) rest

/-- `extractPhoneRegex(text)`: first occurrence of the phone pattern, or null. -/
def extractPhoneRegex (text : String) : Option String :=
  phoneScan none text.data

/-- `extractWithRegex(html)`: `{phone: extractPhoneRegex(html), website: null,
address: null}`, or null when no phone was found. -/
def extractWithRegex (html : String) : Option MicroData :=
  match extractPhoneRegex html with
  | none => none
  | some p => some { phone := some p, website := none, address := none }

/-! ### Severity and the field-completeness analyzer -/

namespace SEVERITY

def COMPLETE : Nat := 0

def MINOR : Nat := 1

def MAJOR : Nat := 2

def CRITICAL : Nat := 3

end SEVERITY

/-- The venue attribute record the script reads (`venue.attributes`). -/
structure VenueAttributes where
  id : String
  name : Option String := none
  phone : Option String := none
  url : Option String := none
  streetName : Option String := none
  categories : Option (List String) := none

/-- A record of the host venue collection; `type` is `"venue"` for venue records. -/
structure Venue where
  type : String
  attributes : VenueAttributes

/-- `REQUIRED_FIELDS`: the checked fields in fixed order, `(field, label)`
(description is deliberately excluded from scoring). -/
def REQUIRED_FIELDS : List (String × String) :=
  [("name", "Name"), ("phone", "Phone"), ("url", "Website")]

/-- Dynamic attribute access `attrs[fieldDef.field]` for the checked fields. -/
def attrGet (attrs : VenueAttributes) (field : String) : Option String :=
  if field == "name" then attrs.name
  else if field == "phone" then attrs.phone
  else if field == "url" then attrs.url
  else none

structure AnalysisResult where
  severity : Nat
  missing : List String
  hasContactInfo : Bool

/-- `analyzeVenue(venue)`: missing labels in `REQUIRED_FIELDS` order, contact flag,
and the first-match-wins severity chain. -/
def analyzeVenue (venue : Venue) : AnalysisResult :=
  let attrs := venue.attributes
  let missing := (REQUIRED_FIELDS.filter fun fd => isEmpty (attrGet attrs fd.1)).map (·.2)
  let hasPhone := !isEmpty attrs.phone
  let hasWebsite := !isEmpty attrs.url
  let hasContactInfo := hasPhone || hasWebsite
  let severity :=
    if missing.length == 0 then SEVERITY.COMPLETE
    else if !hasContactInfo then SEVERITY.CRITICAL
    else if missing.length ≥ 2 then SEVERITY.MAJOR
    else SEVERITY.MINOR
  { severity := severity, missing := missing, hasContactInfo := hasContactInfo }

/-! ### The search-query builder -/

/-- `CATEGORY_HINTS`: the static category → search-hint table. -/
def CATEGORY_HINTS : List (String × String) :=
  [ ("SCHOOL", "school"),
    ("CAFE", "cafe"),
    ("COFFEE_SHOP", "coffee"),
    ("FOOD_AND_DRINK", "restaurant"),
    ("RESTAURANT", "restaurant"),
    ("FAST_FOOD", "restaurant"),
    ("GAS_STATION", "gas station"),
    ("CONVENIENCE_STORE", "convenience store"),
    ("DOCTOR_CLINIC", "medical clinic"),
    ("HOSPITAL_MEDICAL_CARE", "hospital"),
    ("PHARMACY", "pharmacy"),
    ("GARAGE_AUTOMOTIVE_SHOP", "auto repair"),
    ("CAR_WASH", "car wash"),
    ("SHOPPING_AND_SERVICES", "store"),
    ("DEPARTMENT_STORE", "store"),
    ("GROCERY_STORE", "grocery"),
    ("HOTEL", "hotel"),
    ("BANK_FINANCIAL", "bank"),
    ("POST_OFFICE", "post office"),
    ("LIBRARY", "library"),
    ("GYM_FITNESS", "gym"),
    ("OUTDOORS", "outdoor recreation"),
    ("PET_STORE_VETERINARIAN_SERVICES", "veterinary"),
    ("OFFICES", "office") ]

/-- First-match association lookup (own-key lookup on an object literal whose
keys are distinct). -/
def assocLookup (table : List (String × String)) (key : String) : Option String :=
  match table with
  | [] => none
  | (k, v) :: rest => if k == key then some v else assocLookup rest key

/-- The members a JS object literal inherits from `Object.prototype`, paired with
the string each coerces to under `' ' + value` (the V8/Chromium rendering of a
native function; `__proto__` is an accessor whose getter yields `Object.prototype`
itself, an object coercing to `[object Object]`).  Property access
`CATEGORY_HINTS[category]` finds these, all truthy, when `category` is not an own
key of the literal.  The theorems below depend only on these coercions being
non-empty. -/
def OBJECT_PROTOTYPE_MEMBERS : List (String × String) :=
  [ ("constructor", "function Object() \x7b [native code] \x7d"),
    ("hasOwnProperty", "function hasOwnProperty() \x7b [native code] \x7d"),
    ("isPrototypeOf", "function isPrototypeOf() \x7b [native code] \x7d"),
    ("propertyIsEnumerable", "function propertyIsEnumerable() \x7b [native code] \x7d"),
    ("toLocaleString", "function toLocaleString() \x7b [native code] \x7d"),
    ("toString", "function toString() \x7b [native code] \x7d"),
    ("valueOf", "function valueOf() \x7b [native code] \x7d"),
    ("__defineGetter__", "function __defineGetter__() \x7b [native code] \x7d"),
    ("__defineSetter__", "function __defineSetter__() \x7b [native code] \x7d"),
    ("__lookupGetter__", "function __lookupGetter__() \x7b [native code] \x7d"),
    ("__lookupSetter__", "function __lookupSetter__() \x7b [native code] \x7d"),
    ("__proto__", "[object Object]") ]

/-- JS property read `CATEGORY_HINTS[category]`, as the string it contributes to
the query: an own key yields its hint; any other key walks the prototype chain and
finds the `Object.prototype` member of that name, if one exists (a truthy value
whose string coercion is appended by `' ' + categoryHint`); everything else is
undefined. -/
def categoryProperty (category : String) : Option String :=
  match assocLookup CATEGORY_HINTS category with
  | some v => some v
  | none => assocLookup OBJECT_PROTOTYPE_MEMBERS category

/-- `getCategoryHint(category)`: `CATEGORY_HINTS[category] || ''`.  The value is
kept as the string it coerces to; the `|| ''` keeps any defined value, since every
own hint and every inherited member coercion is truthy. -/
def getCategoryHint (category : String) : String :=
  jsOrStr (categoryProperty category) ""

/-- `buildSearchQuery(venueName, categories, cityName, stateAbbr)`. -/
def buildSearchQuery (venueName : String) (categories : List String)
    (cityName stateAbbr : String) : String :=
  let query := venueName
  let query :=
    match categories with
    | [] => query
    | c0 :: _ =>
      let categoryHint := getCategoryHint c0
      if categoryHint != "" then query ++ " " ++ categoryHint else query
  if cityName != "" && stateAbbr != "" then
    query ++ " " ++ cityName ++ " " ++ stateAbbr
  else query

/-- The query as claim C4 originally words it: the space-join, in fixed order, of
the raw name; the hint-table entry of the first category when the category list is
non-empty and such an entry exists; and `cityName stateAbbr` when both are
non-empty — each segment omitted, never placeholdered, otherwise.  This misses the
prototype-inherited keys of the object literal (see `categoryProperty`), so it
differs from `buildSearchQuery` at first categories such as `"toString"`. -/
def buildSearchQuerySpec (venueName : String) (categories : List String)
    (cityName stateAbbr : String) : String :=
  let catSeg :=
    match categories with
    | [] => ""
    | c0 :: _ =>
      match assocLookup CATEGORY_HINTS c0 with
      | some hint => " " ++ hint
      | none => ""
  let locSeg :=
    if cityName != "" && stateAbbr != "" then " " ++ cityName ++ " " ++ stateAbbr
    else ""
  venueName ++ catSeg ++ locSeg

/-- The query as amended claim C4 describes it: as `buildSearchQuerySpec`, except
that the category segment is appended whenever the property access on the hint
table yields a truthy value — an own hint-table entry, or the string coercion of an
`Object.prototype` member for first categories naming one — and omitted only when
that access yields undefined. -/
def buildSearchQuerySpecAmended (venueName : String) (categories : List String)
    (cityName stateAbbr : String) : String :=
  let catSeg :=
    match categories with
    | [] => ""
    | c0 :: _ =>
      match categoryProperty c0 with
      | some hint => " " ++ hint
      | none => ""
  let locSeg :=
    if cityName != "" && stateAbbr != "" then " " ++ cityName ++ " " ++ stateAbbr
    else ""
  venueName ++ catSeg ++ locSeg

/-! ### The venue scan collector -/

/-- `EXCLUDED_CATEGORIES`: category tags excluded from scanning. -/
def EXCLUDED_CATEGORIES : List String :=
  [ "RESIDENCE_HOME", "NATURAL_FEATURES", "SCENIC_LOOKOUT_VIEW_POINT", "PARK",
    "JUNCTION_INTERCHANGE", "BRIDGE", "TUNNEL", "ISLAND", "SEA_LAKE_POOL",
    "RIVER_STREAM", "CANAL", "FOREST_GROVE" ]

/-- The location context `getVenueLocation()` supplies (empty strings when the host
view has none). -/
structure Location where
  cityName : String
  stateName : String
  stateAbbr : String

/-- The `extracted` object the orchestrator stores on a scan entry: an error record
or a success record, absent JS fields modelled as `none`. -/
structure ExtractionResult where
  error : Option String := none
  searchQuery : String
  websiteUrl : Option String := none
  method : Option String := none
  sourceUrl : Option String := none
  phone : Option Json := none
  website : Option Json := none
  address : Option Json := none
  name : Option Json := none

/-- The per-venue record stored in `state.scannedVenues`. -/
structure ScanEntry where
  venue : Venue
  severity : Nat
  missing : List String
  hasContactInfo : Bool
  name : String
  categories : List String
  phone : String
  url : String
  address : String
  location : Location
  extracted : Option ExtractionResult

/-- `state.scannedVenues`, a JS `Map` keyed by venue id. -/
abbrev ScanStore := List (String × ScanEntry)

/-- `Map.prototype.get`. -/
def mapGet (m : ScanStore) (k : String) : Option ScanEntry :=
  match m with
  | [] => none
  | (k0, e) :: rest => if k0 == k then some e else mapGet rest k

/-- `Map.prototype.set`: replace an existing key in place, else append. -/
def mapSet (m : ScanStore) (k : String) (e : ScanEntry) : ScanStore :=
  match m with
  | [] => [(k, e)]
  | (k0, e0) :: rest => if k0 == k then (k, e) :: rest else (k0, e0) :: mapSet rest k e

/-- The scan's unnamed-venue check: `!venueName || venueName.trim() === ''`. -/
def nameMissing (name : Option String) : Bool :=
  match name with
  | none => true
  | some s => s == "" || jsTrim s == ""

/-- `venue.attributes.categories || []` (an empty array is truthy and kept). -/
def venueCategories (v : Venue) : List String :=
  match v.attributes.categories with
  | some cats => cats
  | none => []

/-- `categories.some(cat => EXCLUDED_CATEGORIES.includes(cat))`. -/
def hasExcludedCategory (v : Venue) : Bool :=
  (venueCategories v).any fun cat => EXCLUDED_CATEGORIES.contains cat

/-- A venue the scan scores and stores: a venue-type record with a non-blank name
and no excluded category tag. -/
def isEligibleVenue (v : Venue) : Bool :=
  v.type == "venue" && !nameMissing v.attributes.name && !hasExcludedCategory v

/-- The entry `scanLoadedVenues` stores for an eligible venue. -/
def mkScanEntry (venue : Venue) (location : Location) : ScanEntry :=
  let analysis := analyzeVenue venue
  { venue := venue
    severity := analysis.severity
    missing := analysis.missing
    hasContactInfo := analysis.hasContactInfo
    name := jsOrStr venue.attributes.name "Unnamed Venue"
    categories := venueCategories venue
    phone := jsOrStr venue.attributes.phone ""
    url := jsOrStr venue.attributes.url ""
    address := jsOrStr venue.attributes.streetName ""
    location := location
    extracted := none }

structure ScanOutcome where
  store : ScanStore
  scanned : Nat
  skipped : Nat

/-- The loop of `scanLoadedVenues`, writing into the current result map: non-venue
records are passed over silently, blank-named and excluded-category venues bump
`skipped`, eligible venues are analyzed, stored and bump `scanned`.  `scanned` is
the function's return value; `skipped` is reported through the scan log line. -/
def scanLoadedVenues (m : ScanStore) (venues : List Venue) (location : Location) :
    ScanOutcome :=
  match venues with
  | [] => { store := m, scanned := 0, skipped := 0 }
  | v :: vs =>
    if v.type != "venue" then scanLoadedVenues m vs location
    else if nameMissing v.attributes.name then
      let r := scanLoadedVenues m vs location
      { r with skipped := r.skipped + 1 }
    else if hasExcludedCategory v then
      let r := scanLoadedVenues m vs location
      { r with skipped := r.skipped + 1 }
    else
      let r :=
        scanLoadedVenues (mapSet m v.attributes.id (mkScanEntry v location)) vs location
      { r with scanned := r.scanned + 1 }

/-- `handleScanClick`: `state.scannedVenues.clear()` — the previous result set is
dropped — then `scanLoadedVenues()` runs over the empty map. -/
def handleScanClick (_prev : ScanStore) (venues : List Venue) (location : Location) :
    ScanOutcome :=
  scanLoadedVenues [] venues location

/-! ### Network model and the lookup & fetch orchestrator -/

/-- Outcome of one `GM_xmlhttpRequest`: a response body, a transport error, or a
timeout (the 10-second `timeout` option elapsing). -/
inductive ReqOutcome where
  | load (body : String)
  | netError
  | timedOut

/-- UTF-8 bytes of a character. -/
def utf8Bytes (c : Char) : List Nat :=
  let n := c.toNat
  if n < 0x80 then [n]
  else if n < 0x800 then [0xC0 + n / 64, 0x80 + n % 64]
  else if n < 0x10000 then [0xE0 + n / 4096, 0x80 + n / 64 % 64, 0x80 + n % 64]
  else [0xF0 + n / 262144, 0x80 + n / 4096 % 64, 0x80 + n / 64 % 64, 0x80 + n % 64]

def hexDigitUpper (n : Nat) : Char :=
  if n < 10 then Char.ofNat ('0'.toNat + n) else Char.ofNat ('A'.toNat + n - 10)

/-- `encodeURIComponent`: unreserved characters pass through, every other character
percent-encodes its UTF-8 bytes. -/
def encodeURIComponent (s : String) : String :=
  String.mk (s.data.flatMap fun c =>
    if c.isAlpha || c.isDigit || c == '-' || c == '_' || c == '.' || c == '!' ||
        c == '~' || c == '*' || c == '\'' || c == '(' || c == ')' then [c]
    else (utf8Bytes c).flatMap fun b => ['%', hexDigitUpper (b / 16), hexDigitUpper (b % 16)])

/-- Read one `%XX` escape. -/
def readPctByte : List Char → Option (Nat × List Char)
  | '%' :: h1 :: h2 :: rest =>
    match hexVal h1, hexVal h2 with
    | some a, some b => some (a * 16 + b, rest)
    | _, _ => none
  | _ => none

/-- The loop of `decodeURIComponent`: plain characters pass through, `%XX` escape
groups must form valid UTF-8 (malformed, overlong, surrogate or out-of-range
sequences throw URIError, modelled as `none`). -/
def decodeURIComponentLoop : Nat → List Char → List Char → Option String
  | 0, _, _ => none
  | _, [], acc => some (String.mk acc.reverse)
  | fuel + 1, '%' :: rest, acc =>
    match readPctByte ('%' :: rest) with
    | none => none
    | some (b, rest1) =>
      if b < 0x80 then decodeURIComponentLoop fuel rest1 (Char.ofNat b :: acc)
      else if 0xC2 ≤ b ∧ b ≤ 0xDF then
        match readPctByte rest1 with
        | some (b2, rest2) =>
          if 0x80 ≤ b2 ∧ b2 ≤ 0xBF then
            decodeURIComponentLoop fuel rest2
              (Char.ofNat ((b - 0xC0) * 64 + (b2 - 0x80)) :: acc)
          else none
        | none => none
      else if 0xE0 ≤ b ∧ b ≤ 0xEF then
        match readPctByte rest1 with
        | some (b2, rest2) =>
          match readPctByte rest2 with
          | some (b3, rest3) =>
            if 0x80 ≤ b2 ∧ b2 ≤ 0xBF ∧ 0x80 ≤ b3 ∧ b3 ≤ 0xBF then
              let cp := (b - 0xE0) * 4096 + (b2 - 0x80) * 64 + (b3 - 0x80)
              if cp < 0x800 ∨ (0xD800 ≤ cp ∧ cp ≤ 0xDFFF) then none
              else decodeURIComponentLoop fuel rest3 (Char.ofNat cp :: acc)
            else none
          | none => none
        | none => none
      else if 0xF0 ≤ b ∧ b ≤ 0xF4 then
        match readPctByte rest1 with
        | some (b2, rest2) =>
          match readPctByte rest2 with
          | some (b3, rest3) =>
            match readPctByte rest3 with
            | some (b4, rest4) =>
              if 0x80 ≤ b2 ∧ b2 ≤ 0xBF ∧ 0x80 ≤ b3 ∧ b3 ≤ 0xBF ∧ 0x80 ≤ b4 ∧ b4 ≤ 0xBF then
                let cp := (b - 0xF0) * 262144 + (b2 - 0x80) * 4096 +
                  (b3 - 0x80) * 64 + (b4 - 0x80)
                if cp < 0x10000 ∨ 0x10FFFF < cp then none
                else decodeURIComponentLoop fuel rest4 (Char.ofNat cp :: acc)
              else none
            | none => none
          | none => none
        | none => none
      else none
  | fuel + 1, c :: rest, acc => decodeURIComponentLoop fuel rest (c :: acc)

/-- `decodeURIComponent`; `none` models a thrown URIError. -/
def decodeURIComponent (s : String) : Option String :=
  decodeURIComponentLoop (s.data.length + 1) s.data []

/-- Capture group 1 of the tail of the first-organic-result regex
`<a[^>]*href=["']\/url\?q=([^"'&]+)[&"']` (`i` flag), tried right after `<a`. -/
def tryAnchorTail (cs : List Char) : Option String :=
  (gtFreeCandidates cs).findSome? fun cand =>
    if startsWithCI "href=".data cand then
      match cand.drop 5 with
      | q1 :: rest1 =>
        if isQuote q1 && startsWithCI "/url?q=".data rest1 then
          let rest2 := rest1.drop 7
          let cap := rest2.takeWhile fun c => !(isQuote c || c == '&')
          match rest2.drop cap.length with
          | t :: _ =>
            if (isQuote t || t == '&') && !cap.isEmpty then some (String.mk cap) else none
          | [] => none
        else none
      | [] => none
    else none

/-- Leftmost match of the first-organic-result regex over the search response. -/
def firstGoogleUrl : List Char → Option String
  | [] => none
  | c :: cs =>
    if startsWithCI "<a".data (c :: cs) then
      match tryAnchorTail ((c :: cs).drop 2) with
      | some u => some u
      | none => firstGoogleUrl cs
    else firstGoogleUrl cs

/-- What the `googleSearch` callback chain receives.  `never` records that no
callback was invoked at all: `googleSearch` sets `timeout: 10000` but installs no
`ontimeout` handler, so on a timeout neither `onload` nor `onerror` runs. -/
inductive SearchCb where
  | gotUrl (u : String)
  | failed
  | never

/-- `googleSearch(query, cb)` driven by the request outcome.  On load the first
organic result URL is extracted and `decodeURIComponent`-decoded (a decode throw is
caught by the surrounding try and reported as a failure); no match is
`Error('No results')`; `onerror` reports the transport failure. -/
def googleSearchCb (outcome : ReqOutcome) : SearchCb :=
  match outcome with
  | .load body =>
    match firstGoogleUrl body.data with
    | some raw =>
      match decodeURIComponent raw with
      | some u => .gotUrl u
      | none => .failed
    | none => .failed
  | .netError => .failed
  | .timedOut => .never

/-- What the `scrapeWebsite` callback receives. -/
inductive ScrapeCb where
  | success (phone website address name : Option Json) (method : String)
  | noneFound
  | errorCb (reason : String)

/-- The body of `scrapeWebsite`'s `onload` handler: the three extraction strategies
in order.  `method` is declared `const` (script line 414); when `extractSchemaOrg`
returns null and a later strategy succeeds, the reassignment `method = 'Microdata'`
(or `method = 'Regex'`) throws a TypeError in strict mode, which the surrounding
`try` catches, invoking `callback(error, null)` instead of returning the data. -/
def scrapeProcess (html : String) : ScrapeCb :=
  match extractSchemaOrg html with
  | some d => .success d.phone d.website d.address d.name "Schema.org"
  | none =>
    match extractMicrodata html with
    | some _ => .errorCb "TypeError: Assignment to constant variable."
    | none =>
      match extractWithRegex html with
      | some _ => .errorCb "TypeError: Assignment to constant variable."
      | none => .noneFound

/-- `scrapeWebsite(url, cb)` driven by the request outcome; unlike `googleSearch`,
it installs an `ontimeout` handler, so every outcome invokes the callback. -/
def scrapeWebsiteCb (outcome : ReqOutcome) : ScrapeCb :=
  match outcome with
  | .load body => scrapeProcess body
  | .netError => .errorCb "network error"
  | .timedOut => .errorCb "Timeout"

/-- The mutable script state the orchestrator touches. -/
structure CrawlerState where
  scannedVenues : ScanStore
  extractionInProgress : List String

/-- `Set.prototype.add`. -/
def setAdd (s : List String) (x : String) : List String :=
  if s.contains x then s else s ++ [x]

/-- `Set.prototype.delete`. -/
def setDelete (s : List String) (x : String) : List String :=
  s.filter fun y => y != x

/-- The search request URL `googleSearch` issues. -/
def googleSearchUrl (query : String) : String :=
  "https://www.google.com/search?q=" ++ encodeURIComponent query

/-- `extractVenueData(venueId)` as a function of the two request outcomes the
environment supplies (the search, then the page fetch).  The result is the state
after the whole callback chain has run, paired with the request URLs issued.
Unknown id: log and return.  Id already in flight: log and return.  Otherwise the
id is added to the in-flight set, the search query is built, and the callbacks run
the sequence to its end — except that a search timeout invokes no callback at all
(no `ontimeout` handler), leaving the state as the synchronous prefix left it. -/
def extractVenueData (st : CrawlerState) (venueId : String)
    (searchOutcome fetchOutcome : ReqOutcome) : CrawlerState × List String :=
  match mapGet st.scannedVenues venueId with
  | none => (st, [])
  | some venueData =>
    if st.extractionInProgress.contains venueId then (st, [])
    else
      let inFlight := setAdd st.extractionInProgress venueId
      let query := buildSearchQuery venueData.name venueData.categories
        venueData.location.cityName venueData.location.stateAbbr
      match googleSearchCb searchOutcome with
      | .never =>
        ({ st with extractionInProgress := inFlight }, [googleSearchUrl query])
      | .failed =>
        let result : ExtractionResult :=
          { error := some "No search results found", searchQuery := query }
        let venueData := { venueData with extracted := some result }
        ({ scannedVenues := mapSet st.scannedVenues venueId venueData,
           extractionInProgress := setDelete inFlight venueId },
         [googleSearchUrl query])
      | .gotUrl websiteUrl =>
        match scrapeWebsiteCb fetchOutcome with
        | .errorCb _ =>
          let result : ExtractionResult :=
            { error := some "Failed to fetch website", searchQuery := query,
              websiteUrl := some websiteUrl }
          let venueData := { venueData with extracted := some result }
          ({ scannedVenues := mapSet st.scannedVenues venueId venueData,
             extractionInProgress := setDelete inFlight venueId },
           [googleSearchUrl query, websiteUrl])
        | .noneFound =>
          let result : ExtractionResult :=
            { searchQuery := query, method := some "None", sourceUrl := some websiteUrl }
          let venueData := { venueData with extracted := some result }
          ({ scannedVenues := mapSet st.scannedVenues venueId venueData,
             extractionInProgress := setDelete inFlight venueId },
           [googleSearchUrl query, websiteUrl])
        | .success p w a n meth =>
          let result : ExtractionResult :=
            { searchQuery := query, method := some meth, sourceUrl := some websiteUrl,
              phone := p, website := w, address := a, name := n }
          let venueData := { venueData with extracted := some result }
          ({ scannedVenues := mapSet st.scannedVenues venueId venueData,
             extractionInProgress := setDelete inFlight venueId },
           [googleSearchUrl query, websiteUrl])

/-! ### Concrete fixtures used by the claim instances -/

def locDenver : Location :=
  { cityName := "Denver", stateName := "Colorado", stateAbbr := "CO" }

/-- A venue with all three checked fields present. -/
def venueComplete : Venue :=
  { type := "venue",
    attributes :=
      { id := "v0", name := some "Acme Garage", phone := some "555-1234",
        url := some "acme.example" } }

/-- The spec's concrete scenario: a cafe with blank phone and website. -/
def venueJoes : Venue :=
  { type := "venue",
    attributes :=
      { id := "v1", name := some "Joes Cafe", phone := some "", url := some "",
        categories := some ["CAFE"] } }

/-- State after scanning `venueJoes`, nothing in flight. -/
def crawlerStateJoes : CrawlerState :=
  { scannedVenues := (handleScanClick [] [venueJoes] locDenver).store,
    extractionInProgress := [] }

/-- The same state with the extraction for `"v1"` already marked in flight. -/
def crawlerStateJoesInFlight : CrawlerState :=
  { scannedVenues := (handleScanClick [] [venueJoes] locDenver).store,
    extractionInProgress := ["v1"] }

/-- Markup with a telephone meta tag and no JSON-LD block: the structured-data
strategy yields null and the embedded-metadata strategy yields a phone. -/
def htmlTelephoneMeta : String :=
  "<meta name=\"telephone\" content=\"555-123-4567\">"

/-- Markup with one malformed JSON-LD block followed by one valid qualifying block. -/
def htmlTwoBlocks : String :=
  "<script type=\"application/ld+json\">not json</script>" ++
  "<script type=\"application/ld+json\">\x7b\"@type\":\"Restaurant\",\"telephone\":\"555\",\"url\":\"ex.com\",\"name\":\"Joes\",\"address\":\x7b\"streetAddress\":\"1 Main St\"\x7d\x7d</script>"

/-- The record `extractVenueData` stores when the search yields no result URL or
the search request fails: exactly the reason and the query used. -/
def noSearchResultsRecord (query : String) : ExtractionResult :=
  { error := some "No search results found", searchQuery := query }

/-- The entry the scan stores for `venueJoes`. -/
def entryJoes : ScanEntry := mkScanEntry venueJoes locDenver

end VenueCrawler

namespace VenueCrawler

/-! ### Helper lemmas -/

theorem mapGet_mapSet (m : ScanStore) (k id : String) (e : ScanEntry) :
    mapGet (mapSet m k e) id = if k == id then some e else mapGet m id := by
  induction m with
  | nil => rfl
  | cons hd rest ih =>
    obtain ⟨k0, e0⟩ := hd
    by_cases hk : k0 = k
    · subst hk
      by_cases hid : k0 = id
      · subst hid; simp [mapGet, mapSet]
      · simp [mapGet, mapSet, hid]
    · by_cases hid : k0 = id
      · subst hid
        simp [mapGet, mapSet, hk, Ne.symm hk, ih]
      · simp [mapGet, mapSet, hk, hid, ih]

theorem assocLookup_mem_values (table : List (String × String)) (key v : String) :
    assocLookup table key = some v → v ∈ table.map Prod.snd := by
  induction table with
  | nil => intro h; simp [assocLookup] at h
  | cons p rest ih =>
    obtain ⟨k0, v0⟩ := p
    intro h
    by_cases hk : (k0 == key) = true
    · simp only [assocLookup, hk, if_true, Option.some.injEq] at h
      simp [h]
    · simp only [assocLookup, hk, if_false, Bool.false_eq_true] at h
      simp [ih h]

theorem assocLookup_values_nonblank (table : List (String × String))
    (hvals : ∀ p ∈ table, p.2 ≠ "") (c h : String) :
    assocLookup table c = some h → h ≠ "" := by
  intro hl he
  subst he
  have hm := assocLookup_mem_values table c "" hl
  obtain ⟨p, hp, hpe⟩ := List.mem_map.mp hm
  exact hvals p hp hpe

/-- Every value a property read on the hint table can yield — own hint or inherited
member coercion — is a non-empty string. -/
theorem categoryProperty_nonblank (c h : String) :
    categoryProperty c = some h → h ≠ "" := by
  intro hl
  rw [categoryProperty] at hl
  cases hck : assocLookup CATEGORY_HINTS c with
  | some v =>
    rw [hck] at hl
    injection hl with hvh
    subst hvh
    exact assocLookup_values_nonblank CATEGORY_HINTS (by decide) c v hck
  | none =>
    rw [hck] at hl
    exact assocLookup_values_nonblank OBJECT_PROTOTYPE_MEMBERS (by decide) c h hl

/-! ### Claim theorems -/

/-- C1: `analyzeVenue` follows the first-match-wins decision table: COMPLETE when all
three checked fields (name, phone, website) are non-empty after trimming; CRITICAL
when at least one checked field is empty and both phone and website are empty; MAJOR
when at least two checked fields are empty and phone or website is present; and MINOR
when exactly one checked field is empty and phone or website is present. -/
theorem analyzeVenue_severity_decision_table (v : Venue) :
    ((isEmpty v.attributes.name = false ∧ isEmpty v.attributes.phone = false ∧
        isEmpty v.attributes.url = false) →
      (analyzeVenue v).severity = SEVERITY.COMPLETE) ∧
    (((analyzeVenue v).missing ≠ [] ∧ isEmpty v.attributes.phone = true ∧
        isEmpty v.attributes.url = true) →
      (analyzeVenue v).severity = SEVERITY.CRITICAL) ∧
    (((analyzeVenue v).missing.length ≥ 2 ∧
        (isEmpty v.attributes.phone = false ∨ isEmpty v.attributes.url = false)) →
      (analyzeVenue v).severity = SEVERITY.MAJOR) ∧
    (((analyzeVenue v).missing.length = 1 ∧
        (isEmpty v.attributes.phone = false ∨ isEmpty v.attributes.url = false)) →
      (analyzeVenue v).severity = SEVERITY.MINOR) := by
  cases h1 : isEmpty v.attributes.name <;>
    cases h2 : isEmpty v.attributes.phone <;>
      cases h3 : isEmpty v.attributes.url <;>
        simp [analyzeVenue, REQUIRED_FIELDS, attrGet, h1, h2, h3, SEVERITY.COMPLETE,
          SEVERITY.MINOR, SEVERITY.MAJOR, SEVERITY.CRITICAL]

/-- Witness for C1: a venue with name, phone and website present is COMPLETE. -/
theorem analyzeVenue_severity_decision_table_witness :
    (analyzeVenue venueComplete).severity = SEVERITY.COMPLETE :=
  (analyzeVenue_severity_decision_table venueComplete).1 ⟨by decide, by decide, by decide⟩

/-- C4 (counterexample): the claim as stated fails at the concrete input
`("Joe", ["toString"], "", "")`: `"toString"` has no hint-table entry and no
location is available, so the claim says the query is the name alone and equals the
claim-worded `buildSearchQuerySpec`; but the object literal inherits
`Object.prototype.toString`, a truthy value, so the code appends its string
coercion instead of omitting the segment. -/
theorem buildSearchQuery_inherited_key_not_name_alone :
    buildSearchQuery "Joe" ["toString"] "" "" ≠ "Joe" ∧
    buildSearchQuery "Joe" ["toString"] "" "" ≠
      buildSearchQuerySpec "Joe" ["toString"] "" "" := by
  constructor <;> decide

/-- C4 (amended): `buildSearchQuery` is the space-join, in fixed order, of the raw
name; a category segment when the category list is non-empty and the property
access on the hint table yields a truthy value — an own hint-table entry, or the
string coercion of an inherited `Object.prototype` member for first categories
naming one — and `cityName stateAbbr` when both are non-empty; the category
segment is omitted only when the property access yields undefined, the location
segment when either part is empty, and the query equals the name alone when both
are omitted. -/
theorem buildSearchQuery_eq_spec_amended (venueName : String)
    (categories : List String) (cityName stateAbbr : String) :
    buildSearchQuery venueName categories cityName stateAbbr =
      buildSearchQuerySpecAmended venueName categories cityName stateAbbr := by
  cases categories with
  | nil =>
    by_cases hloc : (cityName != "" && stateAbbr != "") = true <;>
      simp [buildSearchQuery, buildSearchQuerySpecAmended, hloc, String.append_empty,
        String.append_assoc]
  | cons c0 cs =>
    cases hl : categoryProperty c0 with
    | none =>
      by_cases hloc : (cityName != "" && stateAbbr != "") = true <;>
        simp [buildSearchQuery, buildSearchQuerySpecAmended, getCategoryHint, jsOrStr,
          hl, hloc, String.append_empty, String.append_assoc]
    | some hint =>
      have hne : hint ≠ "" := categoryProperty_nonblank c0 hint hl
      by_cases hloc : (cityName != "" && stateAbbr != "") = true <;>
        simp [buildSearchQuery, buildSearchQuerySpecAmended, getCategoryHint, jsOrStr,
          hl, hne, hloc, String.append_empty, String.append_assoc]

/-- One unfolding step of the scan loop, phrased through the eligibility predicate. -/
theorem scanLoadedVenues_cons_store (v : Venue) (vs : List Venue) (m : ScanStore)
    (location : Location) :
    (scanLoadedVenues m (v :: vs) location).store =
      if isEligibleVenue v = true then
        (scanLoadedVenues (mapSet m v.attributes.id (mkScanEntry v location)) vs
          location).store
      else (scanLoadedVenues m vs location).store := by
  cases ht : v.type == "venue" <;>
    cases hn : nameMissing v.attributes.name <;>
      cases hc : hasExcludedCategory v <;>
        simp [scanLoadedVenues, isEligibleVenue, ht, hn, hc, bne]

/-- Every entry of the scan's output store either comes from an eligible venue of
this scan or was already in the input store. -/
theorem scan_store_lookup (venues : List Venue) :
    ∀ (m : ScanStore) (location : Location) (id : String) (e : ScanEntry),
    mapGet (scanLoadedVenues m venues location).store id = some e →
    (∃ v, v ∈ venues ∧ isEligibleVenue v = true ∧ v.attributes.id = id ∧
      e = mkScanEntry v location) ∨ mapGet m id = some e := by
  induction venues with
  | nil => intro m location id e h; right; exact h
  | cons v vs ih =>
    intro m location id e h
    rw [scanLoadedVenues_cons_store] at h
    by_cases hv : isEligibleVenue v = true
    · rw [if_pos hv] at h
      rcases ih _ location id e h with h1 | h2
      · obtain ⟨w, hw, rest⟩ := h1
        exact Or.inl ⟨w, List.mem_cons_of_mem _ hw, rest⟩
      · rw [mapGet_mapSet] at h2
        by_cases hid : (v.attributes.id == id) = true
        · rw [if_pos hid] at h2
          exact Or.inl ⟨v, List.mem_cons_self _ _, hv, beq_iff_eq.mp hid,
            (Option.some.injEq _ _ ▸ h2).symm⟩
        · rw [if_neg hid] at h2
          exact Or.inr h2
    · rw [if_neg hv] at h
      rcases ih m location id e h with h1 | h2
      · obtain ⟨w, hw, rest⟩ := h1
        exact Or.inl ⟨w, List.mem_cons_of_mem _ hw, rest⟩
      · exact Or.inr h2

/-- The scan never removes a stored key. -/
theorem scan_store_preserves (venues : List Venue) :
    ∀ (m : ScanStore) (location : Location) (id : String),
    (mapGet m id).isSome = true →
    (mapGet (scanLoadedVenues m venues location).store id).isSome = true := by
  induction venues with
  | nil => intro m location id h; exact h
  | cons v vs ih =>
    intro m location id h
    rw [scanLoadedVenues_cons_store]
    by_cases hv : isEligibleVenue v = true
    · rw [if_pos hv]
      apply ih
      rw [mapGet_mapSet]
      by_cases hid : (v.attributes.id == id) = true
      · rw [if_pos hid]; rfl
      · rw [if_neg hid]; exact h
    · rw [if_neg hv]; exact ih m location id h

/-- Every eligible venue of the input ends up stored. -/
theorem scan_store_stores (venues : List Venue) :
    ∀ (m : ScanStore) (location : Location) (v : Venue),
    v ∈ venues → isEligibleVenue v = true →
    (mapGet (scanLoadedVenues m venues location).store v.attributes.id).isSome = true := by
  induction venues with
  | nil => intro m location v hmem; exact absurd hmem (List.not_mem_nil v)
  | cons w vs ih =>
    intro m location v hmem hv
    rw [scanLoadedVenues_cons_store]
    rcases List.mem_cons.mp hmem with rfl | htail
    · rw [if_pos hv]
      apply scan_store_preserves
      rw [mapGet_mapSet, if_pos (beq_self_eq_true _)]
      rfl
    · by_cases hw : isEligibleVenue w = true
      · rw [if_pos hw]; exact ih _ location v htail hv
      · rw [if_neg hw]; exact ih m location v htail hv

/-- The scanned count is the number of eligible venues. -/
theorem scan_scanned_count (venues : List Venue) :
    ∀ (m : ScanStore) (location : Location),
    (scanLoadedVenues m venues location).scanned =
      (venues.filter fun v => isEligibleVenue v).length := by
  induction venues with
  | nil => intro m location; rfl
  | cons v vs ih =>
    intro m location
    cases ht : v.type == "venue" <;>
      cases hn : nameMissing v.attributes.name <;>
        cases hc : hasExcludedCategory v <;>
          simp [scanLoadedVenues, isEligibleVenue, ht, hn, hc, bne, ih,
            List.filter_cons]

/-- The skipped count is the number of venue-type records with a blank name or an
excluded category. -/
theorem scan_skipped_count (venues : List Venue) :
    ∀ (m : ScanStore) (location : Location),
    (scanLoadedVenues m venues location).skipped =
      (venues.filter fun v =>
        v.type == "venue" && (nameMissing v.attributes.name || hasExcludedCategory v)).length := by
  induction venues with
  | nil => intro m location; rfl
  | cons v vs ih =>
    intro m location
    cases ht : v.type == "venue" <;>
      cases hn : nameMissing v.attributes.name <;>
        cases hc : hasExcludedCategory v <;>
          simp [scanLoadedVenues, ht, hn, hc, bne, ih, List.filter_cons]

/-- C5: the scan excludes (neither scores nor stores) exactly the venues that are
not venue-type records, have a blank name after trimming, or carry an excluded
category tag; and it reports the scanned count (its return value) and the skipped
count (the scan log line): scanned counts the eligible venues, skipped counts the
venue-type records rejected for a blank name or an excluded category. -/
theorem scanLoadedVenues_eligibility_and_counts (venues : List Venue)
    (location : Location) :
    (∀ id : String,
      (mapGet (scanLoadedVenues [] venues location).store id).isSome = true ↔
        ∃ v, v ∈ venues ∧ isEligibleVenue v = true ∧ v.attributes.id = id) ∧
    (scanLoadedVenues [] venues location).scanned =
      (venues.filter fun v => isEligibleVenue v).length ∧
    (scanLoadedVenues [] venues location).skipped =
      (venues.filter fun v =>
        v.type == "venue" &&
          (nameMissing v.attributes.name || hasExcludedCategory v)).length := by
  refine ⟨fun id => ⟨fun h => ?_, fun h => ?_⟩, scan_scanned_count venues [] location,
    scan_skipped_count venues [] location⟩
  · obtain ⟨e, he⟩ := Option.isSome_iff_exists.mp h
    rcases scan_store_lookup venues [] location id e he with h1 | h2
    · obtain ⟨v, hv, helig, hid, -⟩ := h1
      exact ⟨v, hv, helig, hid⟩
    · simp [mapGet] at h2
  · obtain ⟨v, hv, helig, hid⟩ := h
    subst hid
    exact scan_store_stores venues [] location v hv helig

/-- C6: running a scan replaces the previous result set entirely: every entry of the
post-scan store is a fresh entry (extraction field null) of an eligible venue of this
scan, whatever the previous store held, and every eligible venue of this scan is
stored. -/
theorem handleScanClick_full_replacement (prev : ScanStore) (venues : List Venue)
    (location : Location) :
    (∀ id e, mapGet (handleScanClick prev venues location).store id = some e →
      e.extracted = none ∧
        ∃ v, v ∈ venues ∧ isEligibleVenue v = true ∧ v.attributes.id = id ∧
          e = mkScanEntry v location) ∧
    (∀ v, v ∈ venues → isEligibleVenue v = true →
      (mapGet (handleScanClick prev venues location).store v.attributes.id).isSome
        = true) := by
  constructor
  · intro id e he
    rcases scan_store_lookup venues [] location id e he with h1 | h2
    · obtain ⟨v, hv, helig, hid, hentry⟩ := h1
      refine ⟨?_, v, hv, helig, hid, hentry⟩
      rw [hentry]
      rfl
    · simp [mapGet] at h2
  · intro v hv helig
    exact scan_store_stores venues [] location v hv helig

/-- Witness for C6: after scanning `[venueJoes]` over an arbitrary previous store,
the eligible venue `venueJoes` is stored. -/
theorem handleScanClick_full_replacement_witness :
    (mapGet (handleScanClick [] [venueJoes] locDenver).store "v1").isSome = true :=
  (handleScanClick_full_replacement [] [venueJoes] locDenver).2 venueJoes
    (List.mem_singleton.mpr rfl) (by decide)

/-- C10: a venue that passes the scan's eligibility filter (in particular its name is
non-blank) is never classified MAJOR: two missing checked fields could only be phone
and website together, which kills `hasContactInfo` and classifies CRITICAL first.
Every eligible venue's severity is COMPLETE, MINOR or CRITICAL. -/
theorem eligible_venue_severity_never_major (v : Venue)
    (h : isEligibleVenue v = true) :
    (analyzeVenue v).severity ≠ SEVERITY.MAJOR ∧
      ((analyzeVenue v).severity = SEVERITY.COMPLETE ∨
       (analyzeVenue v).severity = SEVERITY.MINOR ∨
       (analyzeVenue v).severity = SEVERITY.CRITICAL) := by
  have hnm : nameMissing v.attributes.name = false := by
    have h' := h
    simp only [isEligibleVenue, Bool.and_eq_true, Bool.not_eq_true'] at h'
    exact h'.1.2
  have hname : isEmpty v.attributes.name = false := by
    cases hn : v.attributes.name with
    | none => rw [hn] at hnm; simp [nameMissing] at hnm
    | some s =>
      rw [hn] at hnm
      simp only [nameMissing, Bool.or_eq_false_iff] at hnm
      simp only [isEmpty]
      exact hnm.2
  cases hp : isEmpty v.attributes.phone <;> cases hu : isEmpty v.attributes.url <;>
    simp [analyzeVenue, REQUIRED_FIELDS, attrGet, hname, hp, hu, SEVERITY.COMPLETE,
      SEVERITY.MINOR, SEVERITY.MAJOR, SEVERITY.CRITICAL]

/-- C9: while an extraction sequence is in flight for a venue identity, a second
invocation of `extractVenueData` for the same identity is a no-op: it returns
immediately, issues no search request, and leaves the whole state — in particular
the result set's entry for that identity — unchanged. -/
theorem extract_second_call_is_noop (st : CrawlerState) (venueId : String)
    (searchOutcome fetchOutcome : ReqOutcome)
    (h : st.extractionInProgress.contains venueId = true) :
    extractVenueData st venueId searchOutcome fetchOutcome = (st, []) := by
  cases hget : mapGet st.scannedVenues venueId with
  | none => simp [extractVenueData, hget]
  | some vd =>
    have hm : venueId ∈ st.extractionInProgress := by simpa using h
    simp [extractVenueData, hget, hm]

/-- Witness for C9: with `"v1"` already in flight, a second call returns the state
unchanged and issues no request. -/
theorem extract_second_call_is_noop_witness :
    extractVenueData crawlerStateJoesInFlight "v1" ReqOutcome.netError
      ReqOutcome.netError = (crawlerStateJoesInFlight, []) :=
  extract_second_call_is_noop crawlerStateJoesInFlight "v1" ReqOutcome.netError
    ReqOutcome.netError (by rfl)

/-- C8: when the search yields no result URL (or the search request fails), the
stored ExtractionResult is exactly the error record carrying the reason
"No search results found" and the search query used, and it fully replaces the
venue's prior ExtractionResult — the conclusion does not depend on the prior
`extracted` field, so nothing is merged across attempts. -/
theorem search_failure_stores_error_record (st : CrawlerState) (venueId : String)
    (vd : ScanEntry) (searchOutcome fetchOutcome : ReqOutcome)
    (hget : mapGet st.scannedVenues venueId = some vd)
    (hnif : st.extractionInProgress.contains venueId = false)
    (hfail : searchOutcome = .netError ∨
      ∃ body, searchOutcome = .load body ∧ firstGoogleUrl body.data = none) :
    mapGet (extractVenueData st venueId searchOutcome fetchOutcome).1.scannedVenues
        venueId =
      some { vd with extracted := some (noSearchResultsRecord
        (buildSearchQuery vd.name vd.categories vd.location.cityName
          vd.location.stateAbbr)) } := by
  have hcb : googleSearchCb searchOutcome = .failed := by
    rcases hfail with rfl | ⟨body, rfl, hb⟩
    · rfl
    · simp [googleSearchCb, hb]
  have hm : venueId ∉ st.extractionInProgress := by simpa using hnif
  simp [extractVenueData, hget, hm, hcb, noSearchResultsRecord, mapGet_mapSet]

/-- Witness for C8: a transport failure of the search stores exactly the no-results
record (reason and query only) on the entry for `"v1"`. -/
theorem search_failure_stores_error_record_witness :
    mapGet (extractVenueData crawlerStateJoes "v1" ReqOutcome.netError
        ReqOutcome.netError).1.scannedVenues "v1" =
      some { entryJoes with extracted := some (noSearchResultsRecord
        (buildSearchQuery entryJoes.name entryJoes.categories
          entryJoes.location.cityName entryJoes.location.stateAbbr)) } :=
  search_failure_stores_error_record crawlerStateJoes "v1" entryJoes
    ReqOutcome.netError ReqOutcome.netError (by rfl) (by rfl) (Or.inl rfl)

/-- C3 (code evaluation at the failing input): `extractVenueData` adds the identity
to the in-flight set before the asynchronous sequence begins, but when the search
request times out `googleSearch` invokes no callback at all — it sets
`timeout: 10000` without an `ontimeout` handler — so the identity is never removed
from the in-flight set (and the entry keeps its prior ExtractionResult), refuting
the claim's removal on every terminal outcome. -/
theorem search_timeout_never_clears_in_flight :
    (extractVenueData crawlerStateJoes "v1" ReqOutcome.timedOut
        ReqOutcome.netError).1.extractionInProgress = ["v1"] ∧
    (extractVenueData crawlerStateJoes "v1" ReqOutcome.timedOut
        ReqOutcome.netError).1.scannedVenues = crawlerStateJoes.scannedVenues :=
  ⟨by rfl, by rfl⟩

/-- C2 (code evaluation at the failing input): for markup where the structured-data
strategy yields null and the embedded-metadata strategy yields a phone, the pipeline
does not return the metadata fields tagged with the embedded-metadata method:
`method` is declared `const`, the reassignment `method = 'Microdata'` throws a
TypeError under strict mode, and the caught exception makes the scrape invoke its
error callback instead. -/
theorem microdata_success_hits_const_reassignment :
    extractSchemaOrg htmlTelephoneMeta = none ∧
    extractMicrodata htmlTelephoneMeta =
      some { phone := some "555-123-4567", website := none, address := none } ∧
    scrapeProcess htmlTelephoneMeta =
      .errorCb "TypeError: Assignment to constant variable." :=
  ⟨by rfl, by rfl, by rfl⟩

set_option maxRecDepth 8000 in
/-- C7: the structured-data strategy skips any block whose content fails to parse as
JSON and continues with the next block; in particular, on markup with one malformed
block followed by one valid qualifying block it returns the valid block's mapped
fields (phone, url, nested street-address, name), not null. -/
theorem extractSchemaOrg_skips_unparseable_blocks (b : String) (bs : List String)
    (hb : parseJson b = none) :
    schemaFromBlocks (b :: bs) = schemaFromBlocks bs ∧
    extractSchemaOrg htmlTwoBlocks =
      some { phone := some (.str "555"), website := some (.str "ex.com"),
             address := some (.str "1 Main St"), name := some (.str "Joes") } := by
  constructor
  · simp [schemaFromBlocks, schemaBlockResult, hb]
  · rfl

/-- Witness for C7: a block that is not JSON is skipped. -/
theorem extractSchemaOrg_skips_unparseable_blocks_witness :
    schemaFromBlocks ["not json"] = schemaFromBlocks [] :=
  (extractSchemaOrg_skips_unparseable_blocks "not json" [] (by rfl)).1

/-- Witness for C10: the eligible venue `venueJoes` is classified CRITICAL, not MAJOR. -/
theorem eligible_venue_severity_never_major_witness :
    (analyzeVenue venueJoes).severity ≠ SEVERITY.MAJOR ∧
      ((analyzeVenue venueJoes).severity = SEVERITY.COMPLETE ∨
       (analyzeVenue venueJoes).severity = SEVERITY.MINOR ∨
       (analyzeVenue venueJoes).severity = SEVERITY.CRITICAL) :=
  eligible_venue_severity_never_major venueJoes (by decide)

end VenueCrawler
